import Mathlib

/-!
Shallow embedding of the slide-deck controller in `src/script.js`.

The program is a browser slide-deck controller (`class SlideDeck`) plus a
dwell-time tracker (`class SlideAnalytics`).  We embed the DOM-visible state
of the controller as a record: the navigation index, the slide elements with
their two CSS class flags (`active`, `exit-left`) and the optional title
sub-element, and the UI projection targets (counter text, progress-bar width,
the two buttons, the document title).

JavaScript behaviours modelled explicitly:
  * `this.slides[i]` on a NodeList yields `undefined` out of bounds; a
    subsequent member access throws a TypeError.  Operations that can hit
    such an access return `Option`: `none` models the thrown exception.
  * `goToSlide` is two-phase: an immediate exit-cue phase and a commit phase
    deferred by a 50 ms `setTimeout`.  `goToSlideImmediate` returns the
    post-exit-cue state together with `some slideNumber` when a deferred
    commit was scheduled (`none` when the range guard returned early);
    `goToSlideCommit` is the deferred callback; `goToSlide` composes the two,
    i.e. a single call with no interleaved navigation, run to quiescence.
  * The progress width `(currentSlide / totalSlides) * 100` is modelled over
    `ℚ`; counter text and opacity are the strings the code assigns.
-/

/-- One slide element: its two animation class flags and the text content of
its optional `.slide-title, .main-title` sub-element (`none` when the query
finds no such element). -/
structure Slide where
  active : Bool
  exitLeft : Bool
  title : Option String
deriving Repr, DecidableEq

/-- A navigation button's DOM-visible state (`disabled`, `style.opacity`). -/
structure ButtonUI where
  disabled : Bool
  opacity : String
deriving Repr, DecidableEq

/-- The DOM-visible state owned or written by the `SlideDeck` controller. -/
structure SlideDeck where
  currentSlide : Int
  totalSlides : Nat
  slides : List Slide
  slideCounter : String
  progressWidth : Rat
  prevBtn : ButtonUI
  nextBtn : ButtonUI
  docTitle : String
deriving Repr, DecidableEq

/-- `nth xs n` is element `n` of `xs` (0-based), `none` past the end. -/
def nth : List Slide → Nat → Option Slide
  | [], _ => none
  | x :: _, 0 => some x
  | _ :: xs, n + 1 => nth xs n

/-- JavaScript NodeList indexing `xs[i]` with an `Int` index: negative or
out-of-range indices yield `undefined`, modelled as `none`. -/
def jsIndex (xs : List Slide) (i : Int) : Option Slide :=
  if i < 0 then none else nth xs i.toNat

/-- Replace element `i` of `xs` by `f` applied to it; identity past the end
(mutating one element of the NodeList in place). -/
def modifyAt (f : Slide → Slide) : List Slide → Nat → List Slide
  | [], _ => []
  | x :: xs, 0 => f x :: xs
  | x :: xs, n + 1 => x :: modifyAt f xs n

/-- `updateButtonStates()` (script.js lines 173-191): previous button disabled
and dimmed to opacity "0.3" iff `currentSlide === 1`, next button disabled and
dimmed iff `currentSlide === totalSlides`, otherwise enabled at opacity "1". -/
def SlideDeck.updateButtonStates (d : SlideDeck) : SlideDeck :=
  let pb : ButtonUI := if d.currentSlide = 1 then ⟨true, "0.3"⟩ else ⟨false, "1"⟩
  let nb : ButtonUI :=
    if d.currentSlide = (d.totalSlides : Int) then ⟨true, "0.3"⟩ else ⟨false, "1"⟩
  { d with prevBtn := pb, nextBtn := nb }

/-- `updateUI()` (script.js lines 154-171): writes the counter text
`currentSlide / totalSlides`, the progress width `(currentSlide/totalSlides)*100`,
the button states, and then reads `this.slides[this.currentSlide - 1]` to
project its title element into `document.title` (skipped when the slide has no
title element).  When that slide access yields `undefined` the `.querySelector`
call throws: result `none`. -/
def SlideDeck.updateUI (d : SlideDeck) : Option SlideDeck :=
  match jsIndex d.slides (d.currentSlide - 1) with
  | none => none
  | some s =>
    let c2 := SlideDeck.updateButtonStates { d with
      slideCounter := toString d.currentSlide ++ " / " ++ toString d.totalSlides,
      progressWidth := ((d.currentSlide : Rat) / (d.totalSlides : Rat)) * 100 }
    match s.title with
    | some t => some { c2 with docTitle := t ++ " - GMC Acadia Korea Market" }
    | none => some c2

/-- The immediate phase of `goToSlide(slideNumber)` (script.js lines 92-108):
the range guard, the direction computation, the exit cue on the slide being
left (`active` removed; `exit-left` added only when moving forward), and the
scheduling of the deferred commit.  Returns the post-phase state and
`some slideNumber` when a commit was scheduled, `(d, none)` when the guard
returned early; `none` models a thrown TypeError (current slide element
`undefined`). -/
def SlideDeck.goToSlideImmediate (d : SlideDeck) (slideNumber : Int) :
    Option (SlideDeck × Option Int) :=
  if slideNumber < 1 ∨ slideNumber > (d.totalSlides : Int) then
    some (d, none)
  else
    match jsIndex d.slides (d.currentSlide - 1) with
    | none => none
    | some _ =>
      let idx := (d.currentSlide - 1).toNat
      let s1 := modifyAt (fun s => { s with active := false }) d.slides idx
      let s2 :=
        if slideNumber > d.currentSlide then
          modifyAt (fun s => { s with exitLeft := true }) s1 idx
        else s1
      some ({ d with slides := s2 }, some slideNumber)

/-- The deferred commit phase of `goToSlide` (script.js lines 111-128, the
`setTimeout` callback): removes `active` and `exit-left` from every slide,
adds `active` to the captured target slide, assigns
`currentSlide = slideNumber`, and runs `updateUI()`.  `none` models a thrown
TypeError (target element `undefined`).

`commitState` is the state the callback builds when the captured target
element exists: every slide cleared of `active`/`exit-left`, the target slide
re-marked `active`, and the index committed. -/
def commitState (d : SlideDeck) (slideNumber : Int) : SlideDeck :=
  { d with
    slides := modifyAt (fun s => { s with active := true })
      (d.slides.map fun s => { s with active := false, exitLeft := false })
      (slideNumber - 1).toNat,
    currentSlide := slideNumber }

def SlideDeck.goToSlideCommit (d : SlideDeck) (slideNumber : Int) : Option SlideDeck :=
  match jsIndex (d.slides.map fun s => { s with active := false, exitLeft := false })
      (slideNumber - 1) with
  | none => none
  | some _ => SlideDeck.updateUI (commitState d slideNumber)

/-- A single call to `goToSlide(slideNumber)` with no interleaved navigation,
run past the 50 ms timer: the immediate phase followed by the deferred commit
when one was scheduled. -/
def SlideDeck.goToSlide (d : SlideDeck) (slideNumber : Int) : Option SlideDeck :=
  match d.goToSlideImmediate slideNumber with
  | none => none
  | some (d1, none) => some d1
  | some (d1, some k) => d1.goToSlideCommit k

/-- `nextSlide()` (script.js lines 80-84). -/
def SlideDeck.nextSlide (d : SlideDeck) : Option SlideDeck :=
  if d.currentSlide < (d.totalSlides : Int) then
    d.goToSlide (d.currentSlide + 1)
  else some d

/-- `previousSlide()` (script.js lines 86-90). -/
def SlideDeck.previousSlide (d : SlideDeck) : Option SlideDeck :=
  if d.currentSlide > 1 then
    d.goToSlide (d.currentSlide - 1)
  else some d

/-- `handleSwipe(startX, endX)` (script.js lines 135-148): threshold 50;
`|startX - endX| > 50` triggers `nextSlide` when positive, `previousSlide`
otherwise; below or at the threshold nothing happens. -/
def SlideDeck.handleSwipe (d : SlideDeck) (startX endX : Int) : Option SlideDeck :=
  if 50 < |startX - endX| then
    if startX - endX > 0 then d.nextSlide else d.previousSlide
  else some d

/-- `getCurrentSlideNumber()` (script.js lines 197-199). -/
def SlideDeck.getCurrentSlideNumber (d : SlideDeck) : Int :=
  d.currentSlide

/-- `getTotalSlides()` (script.js lines 201-203). -/
def SlideDeck.getTotalSlides (d : SlideDeck) : Nat :=
  d.totalSlides

/-- The `SlideDeck` constructor (script.js lines 7-26): captures the slide
collection found in the document (with whatever class flags the markup gave
them), sets `currentSlide = 1`, records `totalSlides` from the collection
length, and performs the initial `updateUI()` projection.  `initTitle` is the
document's pre-existing title; the counter, progress and button fields start
in their unspecified markup state, here the neutral values a fresh document
provides, and are overwritten by `updateUI` before they can be observed.
`none` models a TypeError thrown during construction. -/
def initState (initialSlides : List Slide) (initTitle : String) : SlideDeck :=
  { currentSlide := 1,
    totalSlides := initialSlides.length,
    slides := initialSlides,
    slideCounter := "",
    progressWidth := 0,
    prevBtn := ⟨false, "1"⟩,
    nextBtn := ⟨false, "1"⟩,
    docTitle := initTitle }

def mkSlideDeck (initialSlides : List Slide) (initTitle : String) : Option SlideDeck :=
  SlideDeck.updateUI (initState initialSlides initTitle)

/-- `class SlideAnalytics` state (script.js lines 254-259): the per-index
accumulated view times (a JS object, defaulting to 0 for unseen keys, hence a
total function), the session start timestamp and the last-transition
timestamp.  Timestamps are `Date.now()` milliseconds, modelled as `Int`. -/
structure SlideAnalytics where
  slideViewTimes : Int → Int
  startTime : Int
  currentSlideStartTime : Int

/-- The `SlideAnalytics` constructor (script.js lines 255-259) run at time
`t`: empty view-time map, both timestamps set to `Date.now()`. -/
def mkSlideAnalytics (t : Int) : SlideAnalytics :=
  { slideViewTimes := fun _ => 0, startTime := t, currentSlideStartTime := t }

/-- `trackSlideChange(slideNumber)` (script.js lines 261-271) invoked at time
`now`: adds `now - currentSlideStartTime` to the accumulated total for
`slideNumber` (initialising a falsy entry to 0 first) and resets
`currentSlideStartTime` to `now`. -/
def SlideAnalytics.trackSlideChange (a : SlideAnalytics) (slideNumber : Int)
    (now : Int) : SlideAnalytics :=
  let duration := now - a.currentSlideStartTime
  { a with
    slideViewTimes := fun k =>
      if k = slideNumber then a.slideViewTimes slideNumber + duration
      else a.slideViewTimes k,
    currentSlideStartTime := now }

/-- `getReport()` (script.js lines 273-278) read at time `now`. -/
def SlideAnalytics.getReport (a : SlideAnalytics) (now : Int) :
    Int × (Int → Int) :=
  (now - a.startTime, a.slideViewTimes)

/-- Well-formedness tying the captured collection to the captured count: the
constructor reads both from the same `querySelectorAll` result. -/
def SlideDeck.WF (d : SlideDeck) : Prop :=
  d.slides.length = d.totalSlides

/-- The navigation-state invariant of the spec: `currentSlide ∈ [1, totalSlides]`. -/
def SlideDeck.Inv (d : SlideDeck) : Prop :=
  1 ≤ d.currentSlide ∧ d.currentSlide ≤ (d.totalSlides : Int)

instance (d : SlideDeck) : Decidable d.WF := by
  unfold SlideDeck.WF; infer_instance

instance (d : SlideDeck) : Decidable d.Inv := by
  unfold SlideDeck.Inv; infer_instance

/-- Exactly the slide at position `i` carries the `active` flag. -/
def onlyActiveAt (xs : List Slide) (i : Nat) : Prop :=
  i < xs.length ∧ ∀ j s, nth xs j = some s → (s.active = true ↔ j = i)

/-- The UI projection `updateUI`/`updateButtonStates` establishes for index
`k` of a `total`-slide deck, as the spec states it. -/
def uiProjected (d : SlideDeck) (k : Int) (total : Nat) : Prop :=
  (d.prevBtn.disabled = true ↔ k = 1) ∧
  d.prevBtn.opacity = (if k = 1 then "0.3" else "1") ∧
  (d.nextBtn.disabled = true ↔ k = (total : Int)) ∧
  d.nextBtn.opacity = (if k = (total : Int) then "0.3" else "1") ∧
  d.slideCounter = toString k ++ " / " ++ toString total ∧
  d.progressWidth = ((k : Rat) / (total : Rat)) * 100

/-- One navigation-channel event, as dispatched by the listeners. -/
inductive NavOp where
  | next : NavOp
  | prev : NavOp
  | goTo : Int → NavOp
  | swipe : Int → Int → NavOp
deriving Repr, DecidableEq

/-- Run one navigation event to quiescence. -/
def runOp (d : SlideDeck) : NavOp → Option SlideDeck
  | NavOp.next => d.nextSlide
  | NavOp.prev => d.previousSlide
  | NavOp.goTo n => d.goToSlide n
  | NavOp.swipe s e => d.handleSwipe s e

/-- Run a sequence of navigation events to quiescence. -/
def runOps (d : SlideDeck) : List NavOp → Option SlideDeck
  | [] => some d
  | op :: ops => (runOp d op).bind fun d1 => runOps d1 ops

example : (mkSlideDeck [] "t") = none := by decide

def slideA : Slide := { active := true, exitLeft := false, title := some "Intro" }

def slideB : Slide := { active := false, exitLeft := false, title := none }

def slideC : Slide := { active := false, exitLeft := false, title := some "Wrap" }

/-- A concrete three-slide deck as the constructor builds it from a document
whose markup marks the first slide active. -/
def sampleDeck : SlideDeck :=
  { currentSlide := 1,
    totalSlides := 3,
    slides := [slideA, slideB, slideC],
    slideCounter := "1 / 3",
    progressWidth := 100 / 3,
    prevBtn := ⟨true, "0.3"⟩,
    nextBtn := ⟨false, "1"⟩,
    docTitle := "Intro - GMC Acadia Korea Market" }

example : (mkSlideDeck [slideA, slideB, slideC] "t").isSome = true := by decide

example : (sampleDeck.goToSlide 2).map SlideDeck.currentSlide = some 2 := by decide

example : sampleDeck.goToSlide 0 = some sampleDeck := rfl

example : sampleDeck.goToSlide 4 = some sampleDeck := rfl

/-! ### Indexing lemmas -/

lemma nth_lt_exists (xs : List Slide) (j : Nat) (h : j < xs.length) :
    ∃ s, nth xs j = some s := by
  induction xs generalizing j with
  | nil => simp at h
  | cons x xs ih =>
    cases j with
    | zero => exact ⟨x, rfl⟩
    | succ m => exact ih m (Nat.lt_of_succ_lt_succ h)

lemma nth_some_lt (xs : List Slide) (j : Nat) (s : Slide)
    (h : nth xs j = some s) : j < xs.length := by
  induction xs generalizing j with
  | nil => simp [nth] at h
  | cons x xs ih =>
    cases j with
    | zero => simp
    | succ m => simpa using ih m h

lemma modifyAt_length (f : Slide → Slide) (xs : List Slide) (i : Nat) :
    (modifyAt f xs i).length = xs.length := by
  induction xs generalizing i with
  | nil => rfl
  | cons x xs ih =>
    cases i with
    | zero => rfl
    | succ m => simpa [modifyAt] using ih m

lemma nth_modifyAt_self (f : Slide → Slide) (xs : List Slide) (i : Nat) :
    nth (modifyAt f xs i) i = (nth xs i).map f := by
  induction xs generalizing i with
  | nil => cases i <;> rfl
  | cons x xs ih =>
    cases i with
    | zero => rfl
    | succ m => exact ih m

lemma nth_modifyAt_ne (f : Slide → Slide) (xs : List Slide) (i j : Nat)
    (h : j ≠ i) : nth (modifyAt f xs i) j = nth xs j := by
  induction xs generalizing i j with
  | nil => rfl
  | cons x xs ih =>
    cases i with
    | zero =>
      cases j with
      | zero => exact absurd rfl h
      | succ m => rfl
    | succ m =>
      cases j with
      | zero => rfl
      | succ k => exact ih m k (fun hk => h (by rw [hk]))

lemma nth_map (f : Slide → Slide) (xs : List Slide) (j : Nat) :
    nth (xs.map f) j = (nth xs j).map f := by
  induction xs generalizing j with
  | nil => rfl
  | cons x xs ih =>
    cases j with
    | zero => rfl
    | succ m => exact ih m

lemma jsIndex_nonneg (xs : List Slide) (i : Int) (h : 0 ≤ i) :
    jsIndex xs i = nth xs i.toNat := by
  unfold jsIndex
  rw [if_neg (by omega)]

/-! ### UI projection lemmas -/

lemma updateUI_spec (d : SlideDeck) (s : Slide)
    (hs : jsIndex d.slides (d.currentSlide - 1) = some s) :
    ∃ d2, d.updateUI = some d2 ∧ d2.currentSlide = d.currentSlide ∧
      d2.totalSlides = d.totalSlides ∧ d2.slides = d.slides ∧
      uiProjected d2 d.currentSlide d.totalSlides := by
  unfold SlideDeck.updateUI SlideDeck.updateButtonStates
  rw [hs]
  dsimp only
  cases ht : s.title with
  | none =>
    refine ⟨_, rfl, rfl, rfl, rfl, ?_⟩
    unfold uiProjected
    refine ⟨?_, ?_, ?_, ?_, rfl, rfl⟩
    · by_cases h1 : d.currentSlide = 1 <;> simp [h1]
    · by_cases h1 : d.currentSlide = 1 <;> simp [h1]
    · by_cases h2 : d.currentSlide = (d.totalSlides : Int) <;> simp [h2]
    · by_cases h2 : d.currentSlide = (d.totalSlides : Int) <;> simp [h2]
  | some t =>
    refine ⟨_, rfl, rfl, rfl, rfl, ?_⟩
    unfold uiProjected
    refine ⟨?_, ?_, ?_, ?_, rfl, rfl⟩
    · by_cases h1 : d.currentSlide = 1 <;> simp [h1]
    · by_cases h1 : d.currentSlide = 1 <;> simp [h1]
    · by_cases h2 : d.currentSlide = (d.totalSlides : Int) <;> simp [h2]
    · by_cases h2 : d.currentSlide = (d.totalSlides : Int) <;> simp [h2]

lemma updateUI_none_inv (d : SlideDeck)
    (hs : jsIndex d.slides (d.currentSlide - 1) = none) :
    d.updateUI = none := by
  unfold SlideDeck.updateUI
  rw [hs]

/-! ### Navigation phase lemmas -/

lemma goToSlideImmediate_valid (d : SlideDeck) (n : Int) (s : Slide)
    (h1 : 1 ≤ n) (h2 : n ≤ (d.totalSlides : Int)) (hcur : 1 ≤ d.currentSlide)
    (hs : nth d.slides (d.currentSlide - 1).toNat = some s) :
    ∃ d1, d.goToSlideImmediate n = some (d1, some n) ∧
      d1.currentSlide = d.currentSlide ∧ d1.totalSlides = d.totalSlides ∧
      d1.prevBtn = d.prevBtn ∧ d1.nextBtn = d.nextBtn ∧
      d1.slideCounter = d.slideCounter ∧ d1.progressWidth = d.progressWidth ∧
      d1.docTitle = d.docTitle ∧
      d1.slides.length = d.slides.length ∧
      nth d1.slides (d.currentSlide - 1).toNat =
        some { s with active := false,
                      exitLeft := if d.currentSlide < n then true else s.exitLeft } ∧
      (∀ j, j ≠ (d.currentSlide - 1).toNat → nth d1.slides j = nth d.slides j) := by
  unfold SlideDeck.goToSlideImmediate
  rw [if_neg (by omega), jsIndex_nonneg _ _ (by omega), hs]
  dsimp only
  by_cases hdir : d.currentSlide < n
  · rw [if_pos hdir]
    refine ⟨_, rfl, rfl, rfl, rfl, rfl, rfl, rfl, rfl, ?_, ?_, ?_⟩
    · rw [modifyAt_length, modifyAt_length]
    · rw [nth_modifyAt_self, nth_modifyAt_self, hs]
      simp [hdir]
    · intro j hj
      rw [nth_modifyAt_ne _ _ _ _ hj, nth_modifyAt_ne _ _ _ _ hj]
  · rw [if_neg hdir]
    refine ⟨_, rfl, rfl, rfl, rfl, rfl, rfl, rfl, rfl, ?_, ?_, ?_⟩
    · rw [modifyAt_length]
    · rw [nth_modifyAt_self, hs]
      simp [hdir]
    · intro j hj
      rw [nth_modifyAt_ne _ _ _ _ hj]

lemma nth_commitState (d : SlideDeck) (n : Int) (j : Nat) :
    nth (commitState d n).slides j =
      (nth d.slides j).map fun u =>
        { u with active := if j = (n - 1).toNat then true else false,
                 exitLeft := false } := by
  have hs : (commitState d n).slides =
      modifyAt (fun s => { s with active := true })
        (d.slides.map fun s => { s with active := false, exitLeft := false })
        ((n - 1).toNat) := rfl
  rw [hs]
  by_cases hj : j = (n - 1).toNat
  · subst hj
    rw [nth_modifyAt_self, nth_map, Option.map_map]
    have hfun : ((fun s : Slide => { s with active := true }) ∘
        (fun s : Slide => { s with active := false, exitLeft := false })) =
        (fun u : Slide =>
          { u with active := if (n - 1).toNat = (n - 1).toNat then true else false,
                   exitLeft := false }) := by
      funext u
      simp
    rw [hfun]
  · rw [nth_modifyAt_ne _ _ _ _ hj, nth_map]
    have hfun : (fun s : Slide => { s with active := false, exitLeft := false }) =
        (fun u : Slide =>
          { u with active := if j = (n - 1).toNat then true else false,
                   exitLeft := false }) := by
      funext u
      rw [if_neg hj]
    rw [hfun]

lemma commitState_length (d : SlideDeck) (n : Int) :
    (commitState d n).slides.length = d.slides.length := by
  have hs : (commitState d n).slides =
      modifyAt (fun s => { s with active := true })
        (d.slides.map fun s => { s with active := false, exitLeft := false })
        ((n - 1).toNat) := rfl
  rw [hs, modifyAt_length]
  simp

lemma onlyActiveAt_commitState (d : SlideDeck) (n : Int)
    (hlen : (n - 1).toNat < d.slides.length) :
    onlyActiveAt (commitState d n).slides ((n - 1).toNat) := by
  constructor
  · rw [commitState_length]
    exact hlen
  · intro j s hj
    rw [nth_commitState] at hj
    cases hu : nth d.slides j with
    | none => rw [hu] at hj; simp at hj
    | some u =>
      rw [hu] at hj
      simp only [Option.map_some'] at hj
      rw [Option.some_inj] at hj
      subst hj
      by_cases hji : j = (n - 1).toNat <;> simp [hji]

lemma goToSlideCommit_valid (d : SlideDeck) (n : Int)
    (h1 : 1 ≤ n) (hlen : (n - 1).toNat < d.slides.length) :
    ∃ d2, d.goToSlideCommit n = some d2 ∧ d2.currentSlide = n ∧
      d2.totalSlides = d.totalSlides ∧ d2.slides.length = d.slides.length ∧
      onlyActiveAt d2.slides ((n - 1).toNat) ∧ uiProjected d2 n d.totalSlides := by
  have hclen : ((d.slides.map fun s =>
      { s with active := false, exitLeft := false })).length = d.slides.length := by
    simp
  obtain ⟨c, hc⟩ := nth_lt_exists _ ((n - 1).toNat) (by rw [hclen]; exact hlen)
  obtain ⟨c2, hc2⟩ := nth_lt_exists (commitState d n).slides ((n - 1).toNat)
    (by rw [commitState_length]; exact hlen)
  have hjs : jsIndex (commitState d n).slides ((commitState d n).currentSlide - 1) =
      some c2 := by
    have hcc : (commitState d n).currentSlide = n := rfl
    rw [hcc, jsIndex_nonneg _ _ (by omega), hc2]
  obtain ⟨d2, hupd, hcu, hto, hsl, hui⟩ := updateUI_spec (commitState d n) c2 hjs
  refine ⟨d2, ?_, ?_, ?_, ?_, ?_, ?_⟩
  · unfold SlideDeck.goToSlideCommit
    rw [jsIndex_nonneg _ _ (by omega), hc]
    exact hupd
  · exact hcu
  · exact hto
  · rw [hsl, commitState_length]
  · rw [hsl]
    exact onlyActiveAt_commitState d n hlen
  · exact hui

lemma goToSlide_valid (d : SlideDeck) (n : Int) (hwf : d.WF) (hinv : d.Inv)
    (h1 : 1 ≤ n) (h2 : n ≤ (d.totalSlides : Int)) :
    ∃ d2, d.goToSlide n = some d2 ∧ d2.currentSlide = n ∧
      d2.totalSlides = d.totalSlides ∧ d2.WF ∧ d2.Inv ∧
      onlyActiveAt d2.slides ((n - 1).toNat) ∧ uiProjected d2 n d.totalSlides := by
  have hwfe : d.slides.length = d.totalSlides := hwf
  obtain ⟨hc1, hc2⟩ := hinv
  obtain ⟨s, hs⟩ := nth_lt_exists d.slides (d.currentSlide - 1).toNat (by omega)
  obtain ⟨d1, him, hicur, hito, _, _, _, _, _, hilen, hiat, hine⟩ :=
    goToSlideImmediate_valid d n s h1 h2 hc1 hs
  have hlen1 : (n - 1).toNat < d1.slides.length := by
    rw [hilen]; omega
  obtain ⟨d2, hcom, h2cur, h2to, h2len, h2act, h2ui⟩ := goToSlideCommit_valid d1 n h1 hlen1
  have htot : d2.totalSlides = d.totalSlides := by rw [h2to, hito]
  refine ⟨d2, ?_, h2cur, htot, ?_, ?_, h2act, ?_⟩
  · unfold SlideDeck.goToSlide
    rw [him]
    exact hcom
  · have : d2.slides.length = d.slides.length := by rw [h2len, hilen]
    unfold SlideDeck.WF
    rw [this, htot]
    exact hwfe
  · refine ⟨by rw [h2cur]; exact h1, ?_⟩
    rw [h2cur, htot]
    exact h2
  · rw [hito] at h2ui
    exact h2ui

lemma goToSlide_invalid (d : SlideDeck) (n : Int)
    (h : n < 1 ∨ n > (d.totalSlides : Int)) :
    d.goToSlideImmediate n = some (d, none) ∧ d.goToSlide n = some d := by
  constructor
  · unfold SlideDeck.goToSlideImmediate
    rw [if_pos h]
  · unfold SlideDeck.goToSlide SlideDeck.goToSlideImmediate
    rw [if_pos h]

lemma goToSlide_preserves (d : SlideDeck) (n : Int) (d2 : SlideDeck)
    (hwf : d.WF) (hinv : d.Inv) (h : d.goToSlide n = some d2) :
    d2.WF ∧ d2.Inv ∧ d2.totalSlides = d.totalSlides := by
  by_cases hv : n < 1 ∨ n > (d.totalSlides : Int)
  · rw [(goToSlide_invalid d n hv).2, Option.some_inj] at h
    subst h
    exact ⟨hwf, hinv, rfl⟩
  · push_neg at hv
    obtain ⟨d2x, heq, _, hto, hwf2, hinv2, _, _⟩ :=
      goToSlide_valid d n hwf hinv (by omega) hv.2
    rw [heq, Option.some_inj] at h
    subst h
    exact ⟨hwf2, hinv2, hto⟩

lemma nextSlide_preserves (d : SlideDeck) (d2 : SlideDeck)
    (hwf : d.WF) (hinv : d.Inv) (h : d.nextSlide = some d2) :
    d2.WF ∧ d2.Inv ∧ d2.totalSlides = d.totalSlides := by
  unfold SlideDeck.nextSlide at h
  split at h
  · exact goToSlide_preserves _ _ _ hwf hinv h
  · rw [Option.some_inj] at h
    subst h
    exact ⟨hwf, hinv, rfl⟩

lemma previousSlide_preserves (d : SlideDeck) (d2 : SlideDeck)
    (hwf : d.WF) (hinv : d.Inv) (h : d.previousSlide = some d2) :
    d2.WF ∧ d2.Inv ∧ d2.totalSlides = d.totalSlides := by
  unfold SlideDeck.previousSlide at h
  split at h
  · exact goToSlide_preserves _ _ _ hwf hinv h
  · rw [Option.some_inj] at h
    subst h
    exact ⟨hwf, hinv, rfl⟩

lemma handleSwipe_preserves (d : SlideDeck) (startX endX : Int) (d2 : SlideDeck)
    (hwf : d.WF) (hinv : d.Inv) (h : d.handleSwipe startX endX = some d2) :
    d2.WF ∧ d2.Inv ∧ d2.totalSlides = d.totalSlides := by
  unfold SlideDeck.handleSwipe at h
  split at h
  · split at h
    · exact nextSlide_preserves _ _ hwf hinv h
    · exact previousSlide_preserves _ _ hwf hinv h
  · rw [Option.some_inj] at h
    subst h
    exact ⟨hwf, hinv, rfl⟩

lemma runOp_preserves (d : SlideDeck) (op : NavOp) (d2 : SlideDeck)
    (hwf : d.WF) (hinv : d.Inv) (h : runOp d op = some d2) :
    d2.WF ∧ d2.Inv ∧ d2.totalSlides = d.totalSlides := by
  cases op with
  | next => exact nextSlide_preserves d d2 hwf hinv h
  | prev => exact previousSlide_preserves d d2 hwf hinv h
  | goTo n => exact goToSlide_preserves d n d2 hwf hinv h
  | swipe a b => exact handleSwipe_preserves d a b d2 hwf hinv h

lemma runOps_preserves (ops : List NavOp) (d : SlideDeck) (d2 : SlideDeck)
    (hwf : d.WF) (hinv : d.Inv) (h : runOps d ops = some d2) :
    d2.WF ∧ d2.Inv ∧ d2.totalSlides = d.totalSlides := by
  induction ops generalizing d with
  | nil =>
    unfold runOps at h
    rw [Option.some_inj] at h
    subst h
    exact ⟨hwf, hinv, rfl⟩
  | cons op ops ih =>
    unfold runOps at h
    cases ho : runOp d op with
    | none => rw [ho] at h; simp at h
    | some d1 =>
      rw [ho] at h
      simp only [Option.some_bind] at h
      obtain ⟨hwf1, hinv1, hto1⟩ := runOp_preserves d op d1 hwf hinv ho
      obtain ⟨hwf2, hinv2, hto2⟩ := ih d1 hwf1 hinv1 h
      exact ⟨hwf2, hinv2, hto2.trans hto1⟩

lemma mkSlideDeck_spec (init : List Slide) (t : String) (d0 : SlideDeck)
    (h : mkSlideDeck init t = some d0) :
    d0.currentSlide = 1 ∧ d0.totalSlides = init.length ∧ d0.slides = init ∧
      d0.WF ∧ d0.Inv ∧ uiProjected d0 1 init.length := by
  unfold mkSlideDeck at h
  cases hjs : jsIndex (initState init t).slides ((initState init t).currentSlide - 1) with
  | none =>
    rw [updateUI_none_inv _ hjs] at h
    cases h
  | some s =>
    have hc0 : (initState init t).currentSlide = 1 := rfl
    have ht0 : (initState init t).totalSlides = init.length := rfl
    have hs0 : (initState init t).slides = init := rfl
    obtain ⟨d2, hupd, hcu, hto, hsl, hui⟩ := updateUI_spec (initState init t) s hjs
    rw [hupd, Option.some_inj] at h
    subst h
    rw [hc0] at hcu hui
    rw [ht0] at hto hui
    rw [hs0] at hsl
    have hlen : 0 < init.length := by
      rw [hc0, hs0, jsIndex_nonneg _ _ (by norm_num)] at hjs
      have := nth_some_lt init _ s hjs
      omega
    refine ⟨hcu, hto, hsl, ?_, ?_, hui⟩
    · unfold SlideDeck.WF
      rw [hsl, hto]
    · refine ⟨by rw [hcu], ?_⟩
      rw [hcu, hto]
      omega

/-! ### Additional concrete states used by closed instantiations -/

def sampleDeck0 : SlideDeck :=
  (mkSlideDeck [slideA, slideB, slideC] "GMC").getD sampleDeck

def sampleOps : List NavOp :=
  [NavOp.next, NavOp.goTo 3, NavOp.prev, NavOp.swipe 200 100]

def sampleRun : SlideDeck := (runOps sampleDeck0 sampleOps).getD sampleDeck0

def sampleNav2 : SlideDeck := (sampleDeck.goToSlide 2).getD sampleDeck

def sampleAnalytics : SlideAnalytics := mkSlideAnalytics 1000

/-! ### Claims -/

/-- C1: for every `n` with `1 ≤ n ≤ totalSlides`, a single `goToSlide(n)` call
with no other navigation interleaved eventually — after the deferred 50 ms
commit phase runs — sets `currentSlide` to `n`, and exactly one slide element,
the one at position `n - 1` of the slide collection, carries the `active`
flag. -/
theorem C1_goToSlide_commits_target (d : SlideDeck) (n : Int)
    (hwf : d.WF) (hinv : d.Inv) (h1 : 1 ≤ n) (h2 : n ≤ (d.totalSlides : Int)) :
    ∃ d2, d.goToSlide n = some d2 ∧ d2.currentSlide = n ∧
      onlyActiveAt d2.slides ((n - 1).toNat) := by
  obtain ⟨d2, ha, hb, _, _, _, hc, _⟩ := goToSlide_valid d n hwf hinv h1 h2
  exact ⟨d2, ha, hb, hc⟩

/-- Closed instantiation of the previous theorem on a concrete three-slide
deck, target index 3. -/
theorem C1_goToSlide_commits_target_witness :
    ∃ d2, sampleDeck.goToSlide 3 = some d2 ∧ d2.currentSlide = 3 ∧
      onlyActiveAt d2.slides (((3 : Int) - 1).toNat) :=
  C1_goToSlide_commits_target sampleDeck 3 (by decide) (by decide)
    (by decide) (by decide)

/-- C2: for every `n` with `n < 1` or `n > totalSlides`, `goToSlide(n)` is a
silent no-op: the whole controller state (index, slide flags, counter text,
progress width, buttons, document title) is unchanged and no deferred commit
is scheduled. -/
theorem C2_goToSlide_out_of_range_noop (d : SlideDeck) (n : Int)
    (h : n < 1 ∨ n > (d.totalSlides : Int)) :
    d.goToSlideImmediate n = some (d, none) ∧ d.goToSlide n = some d :=
  goToSlide_invalid d n h

/-- Closed instantiation of the previous theorem at `n = 0`. -/
theorem C2_goToSlide_out_of_range_noop_witness :
    sampleDeck.goToSlideImmediate 0 = some (sampleDeck, none) ∧
      sampleDeck.goToSlide 0 = some sampleDeck :=
  C2_goToSlide_out_of_range_noop sampleDeck 0 (Or.inl (by decide))

/-- C3: for a constructed deck (which necessarily has `totalSlides ≥ 1`,
otherwise construction throws), `currentSlide` lies in `[1, totalSlides]`
after construction and after every sequence of `nextSlide`, `previousSlide`,
`goToSlide` and `handleSwipe` events, each run through its deferred commit
phase. -/
theorem C3_currentSlide_invariant (init : List Slide) (t : String)
    (d0 : SlideDeck) (ops : List NavOp) (d2 : SlideDeck)
    (h0 : mkSlideDeck init t = some d0) (hrun : runOps d0 ops = some d2) :
    1 ≤ d2.currentSlide ∧ d2.currentSlide ≤ (d2.totalSlides : Int) := by
  obtain ⟨_, _, _, hwf, hinv, _⟩ := mkSlideDeck_spec init t d0 h0
  obtain ⟨_, hinv2, _⟩ := runOps_preserves ops d0 d2 hwf hinv hrun
  exact hinv2

/-- Closed instantiation of the previous theorem on a concrete three-slide
deck and a four-event navigation sequence. -/
theorem C3_currentSlide_invariant_witness :
    1 ≤ sampleRun.currentSlide ∧
      sampleRun.currentSlide ≤ (sampleRun.totalSlides : Int) :=
  C3_currentSlide_invariant [slideA, slideB, slideC] "GMC" sampleDeck0
    sampleOps sampleRun (by rfl) (by rfl)

/-- C4: `nextSlide()` calls `goToSlide(currentSlide + 1)` when
`currentSlide < totalSlides` and is a complete no-op at
`currentSlide = totalSlides`; symmetrically `previousSlide()` calls
`goToSlide(currentSlide - 1)` when `currentSlide > 1` and is a no-op at
`currentSlide = 1`. -/
theorem C4_saturating_navigation (d : SlideDeck) :
    (d.currentSlide < (d.totalSlides : Int) →
      d.nextSlide = d.goToSlide (d.currentSlide + 1)) ∧
    (d.currentSlide = (d.totalSlides : Int) → d.nextSlide = some d) ∧
    (1 < d.currentSlide → d.previousSlide = d.goToSlide (d.currentSlide - 1)) ∧
    (d.currentSlide = 1 → d.previousSlide = some d) := by
  refine ⟨?_, ?_, ?_, ?_⟩
  · intro h
    unfold SlideDeck.nextSlide
    rw [if_pos h]
  · intro h
    unfold SlideDeck.nextSlide
    rw [if_neg (by omega)]
  · intro h
    unfold SlideDeck.previousSlide
    rw [if_pos h]
  · intro h
    unfold SlideDeck.previousSlide
    rw [if_neg (by omega)]

/-- Closed instantiation of the previous theorem on a concrete deck sitting at
its first slide. -/
theorem C4_saturating_navigation_witness :
    sampleDeck.nextSlide = sampleDeck.goToSlide (sampleDeck.currentSlide + 1) ∧
      sampleDeck.previousSlide = some sampleDeck :=
  ⟨(C4_saturating_navigation sampleDeck).1 (by decide),
   (C4_saturating_navigation sampleDeck).2.2.2 (by decide)⟩

/-- C5: after a successful navigation commits index `k`, and after the initial
projection with `k = 1`: the previous button is disabled at opacity 0.3 iff
`k = 1` (else enabled at opacity 1), the next button is disabled at opacity
0.3 iff `k = totalSlides` (else enabled at opacity 1), the counter text is
`"k / totalSlides"`, and the progress width is `(k / totalSlides) * 100`
percent. -/
theorem C5_ui_projection :
    (∀ (d : SlideDeck) (n : Int) (d2 : SlideDeck), d.WF → d.Inv →
      1 ≤ n → n ≤ (d.totalSlides : Int) → d.goToSlide n = some d2 →
      uiProjected d2 n d.totalSlides) ∧
    (∀ (init : List Slide) (t : String) (d0 : SlideDeck),
      mkSlideDeck init t = some d0 → uiProjected d0 1 init.length) := by
  constructor
  · intro d n d2 hwf hinv h1 h2 hnav
    obtain ⟨d2x, heq, _, _, _, _, _, hui⟩ := goToSlide_valid d n hwf hinv h1 h2
    rw [heq, Option.some_inj] at hnav
    subst hnav
    exact hui
  · intro init t d0 h0
    exact (mkSlideDeck_spec init t d0 h0).2.2.2.2.2

/-- Closed instantiation of the previous theorem: navigation to index 2 of the
concrete deck, and the initial projection of a freshly constructed deck. -/
theorem C5_ui_projection_witness :
    uiProjected sampleNav2 2 3 ∧ uiProjected sampleDeck0 1 3 :=
  ⟨C5_ui_projection.1 sampleDeck 2 sampleNav2 (by decide) (by decide)
      (by decide) (by decide) (by rfl),
   C5_ui_projection.2 [slideA, slideB, slideC] "GMC" sampleDeck0 (by rfl)⟩

/-- C6: `handleSwipe(startX, endX)` with `|startX - endX| ≤ 50` changes
nothing; with `startX - endX > 50` it triggers `nextSlide()`; with
`startX - endX < -50` it triggers `previousSlide()`. -/
theorem C6_handleSwipe_threshold (d : SlideDeck) (startX endX : Int) :
    (|startX - endX| ≤ 50 → d.handleSwipe startX endX = some d) ∧
    (50 < startX - endX → d.handleSwipe startX endX = d.nextSlide) ∧
    (startX - endX < -50 → d.handleSwipe startX endX = d.previousSlide) := by
  refine ⟨?_, ?_, ?_⟩
  · intro h
    unfold SlideDeck.handleSwipe
    rw [if_neg (by omega)]
  · intro h
    have hab : |startX - endX| = startX - endX := abs_of_pos (by omega)
    unfold SlideDeck.handleSwipe
    rw [if_pos (by rw [hab]; omega), if_pos (by omega)]
  · intro h
    have hab : |startX - endX| = -(startX - endX) := abs_of_neg (by omega)
    unfold SlideDeck.handleSwipe
    rw [if_pos (by rw [hab]; omega), if_neg (by omega)]

/-- Closed instantiation of the previous theorem: a 100-pixel left swipe, a
100-pixel right swipe, and a 30-pixel sub-threshold swipe. -/
theorem C6_handleSwipe_threshold_witness :
    sampleDeck.handleSwipe 130 100 = some sampleDeck ∧
      sampleDeck.handleSwipe 200 100 = sampleDeck.nextSlide ∧
      sampleDeck.handleSwipe 100 200 = sampleDeck.previousSlide :=
  ⟨(C6_handleSwipe_threshold sampleDeck 130 100).1 (by decide),
   (C6_handleSwipe_threshold sampleDeck 200 100).2.1 (by decide),
   (C6_handleSwipe_threshold sampleDeck 100 200).2.2 (by decide)⟩

/-- C7: in a successful `goToSlide(n)`, the slide being left loses `active`
immediately (before the deferred commit), and receives the `exit-left`
treatment iff the motion is forward (`n > currentSlide`); on backward motion
its `exit-left` flag is left as it was. -/
theorem C7_exit_treatment_forward_only (d : SlideDeck) (n : Int) (s : Slide)
    (hinv : d.Inv) (h1 : 1 ≤ n) (h2 : n ≤ (d.totalSlides : Int))
    (hs : nth d.slides (d.currentSlide - 1).toNat = some s) :
    ∃ d1, d.goToSlideImmediate n = some (d1, some n) ∧
      nth d1.slides (d.currentSlide - 1).toNat =
        some { s with active := false,
                      exitLeft := if d.currentSlide < n then true
                                  else s.exitLeft } := by
  obtain ⟨hc1, _⟩ := hinv
  obtain ⟨d1, him, _, _, _, _, _, _, _, _, hat, _⟩ :=
    goToSlideImmediate_valid d n s h1 h2 hc1 hs
  exact ⟨d1, him, hat⟩

/-- Closed instantiation of the previous theorem: forward motion from slide 1
to slide 2 of the concrete deck. -/
theorem C7_exit_treatment_forward_only_witness :
    ∃ d1, sampleDeck.goToSlideImmediate 2 = some (d1, some 2) ∧
      nth d1.slides (sampleDeck.currentSlide - 1).toNat =
        some { slideA with active := false,
                           exitLeft := if sampleDeck.currentSlide < 2 then true
                                       else slideA.exitLeft } :=
  C7_exit_treatment_forward_only sampleDeck 2 slideA (by decide)
    (by decide) (by decide) (by rfl)

/-- C8 counterexample: not every invalid input is absorbed without throwing.
On a zero-slide deck, construction runs the initial UI projection, whose
title lookup dereferences the missing first slide element
(`this.slides[0]` is `undefined`) and throws a TypeError, modelled as
`none`. -/
theorem C8_zero_slides_throws :
    mkSlideDeck [] "GMC Acadia Korea Market Deck" = none := rfl

/-- C8 (amended): on any well-formed deck with at least one slide and a valid
current index, no controller operation throws for any input — out-of-range
indices, boundary next/previous, arbitrary swipes and a missing title element
are absorbed as silent no-ops or skipped sub-steps — while a zero-slide deck
makes construction itself throw. -/
theorem C8_no_throw_amended (d : SlideDeck) (hwf : d.WF) (hinv : d.Inv) :
    (∀ n, (d.goToSlide n).isSome = true) ∧
    (d.nextSlide).isSome = true ∧
    (d.previousSlide).isSome = true ∧
    (∀ a b, (d.handleSwipe a b).isSome = true) ∧
    (d.updateUI).isSome = true ∧
    (∀ t, mkSlideDeck [] t = none) := by
  have hgo : ∀ n, (d.goToSlide n).isSome = true := by
    intro n
    by_cases hv : n < 1 ∨ n > (d.totalSlides : Int)
    · rw [(goToSlide_invalid d n hv).2]
      rfl
    · push_neg at hv
      obtain ⟨d2, heq, _⟩ := goToSlide_valid d n hwf hinv (by omega) hv.2
      rw [heq]
      rfl
  have hnext : (d.nextSlide).isSome = true := by
    unfold SlideDeck.nextSlide
    split
    · exact hgo _
    · rfl
  have hprev : (d.previousSlide).isSome = true := by
    unfold SlideDeck.previousSlide
    split
    · exact hgo _
    · rfl
  have hswipe : ∀ a b, (d.handleSwipe a b).isSome = true := by
    intro a b
    unfold SlideDeck.handleSwipe
    split
    · split
      · exact hnext
      · exact hprev
    · rfl
  have hupd : (d.updateUI).isSome = true := by
    have hwfe : d.slides.length = d.totalSlides := hwf
    obtain ⟨hc1, hc2⟩ := hinv
    obtain ⟨s, hs⟩ := nth_lt_exists d.slides (d.currentSlide - 1).toNat (by omega)
    have hjs : jsIndex d.slides (d.currentSlide - 1) = some s := by
      rw [jsIndex_nonneg _ _ (by omega)]
      exact hs
    obtain ⟨d2, heq, _⟩ := updateUI_spec d s hjs
    rw [heq]
    rfl
  exact ⟨hgo, hnext, hprev, hswipe, hupd, fun t => rfl⟩

/-- Closed instantiation of the previous theorem on the concrete deck: a wild
out-of-range target does not throw, while zero-slide construction does. -/
theorem C8_no_throw_amended_witness :
    (sampleDeck.goToSlide 99).isSome = true ∧ mkSlideDeck [] "x" = none :=
  ⟨(C8_no_throw_amended sampleDeck (by decide) (by decide)).1 99,
   (C8_no_throw_amended sampleDeck (by decide) (by decide)).2.2.2.2.2 "x"⟩

/-- C9: `trackSlideChange(slideNumber)` invoked at time `now` adds exactly the
elapsed time since the last recorded transition (or since session start when
none has been recorded, as the constructor initialises the last-transition
timestamp to session start) to the accumulated total for `slideNumber`, an
unseen index counting as 0; it then resets the last-transition timestamp to
`now`, and no other index's accumulated total changes. -/
theorem C9_trackSlideChange_accumulates (a : SlideAnalytics)
    (slideNumber now : Int) :
    (a.trackSlideChange slideNumber now).slideViewTimes slideNumber =
        a.slideViewTimes slideNumber + (now - a.currentSlideStartTime) ∧
    (∀ k, k ≠ slideNumber →
        (a.trackSlideChange slideNumber now).slideViewTimes k =
          a.slideViewTimes k) ∧
    (a.trackSlideChange slideNumber now).currentSlideStartTime = now ∧
    (a.trackSlideChange slideNumber now).startTime = a.startTime ∧
    (∀ t : Int, (mkSlideAnalytics t).currentSlideStartTime =
        (mkSlideAnalytics t).startTime) := by
  refine ⟨?_, ?_, rfl, rfl, fun t => rfl⟩
  · unfold SlideAnalytics.trackSlideChange
    dsimp only
    rw [if_pos rfl]
  · intro k hk
    unfold SlideAnalytics.trackSlideChange
    dsimp only
    rw [if_neg hk]

/-- Closed instantiation of the previous theorem: one transition recorded at
time 1500 on a session started at time 1000. -/
theorem C9_trackSlideChange_accumulates_witness :
    (sampleAnalytics.trackSlideChange 3 1500).slideViewTimes 3 =
        sampleAnalytics.slideViewTimes 3 +
          (1500 - sampleAnalytics.currentSlideStartTime) ∧
      (sampleAnalytics.trackSlideChange 3 1500).slideViewTimes 2 =
        sampleAnalytics.slideViewTimes 2 :=
  ⟨(C9_trackSlideChange_accumulates sampleAnalytics 3 1500).1,
   (C9_trackSlideChange_accumulates sampleAnalytics 3 1500).2.1 2 (by decide)⟩

/-- C10: for a valid `n` equal to the current index, `goToSlide(n)` is not a
no-op: it passes the range guard, is classified as backward motion (no
`exit-left` added), immediately removes `active` from the current slide, and
after the deferred phase re-activates that same slide, re-runs the full UI
projection, and leaves `currentSlide = n`. -/
theorem C10_goToSlide_current_index (d : SlideDeck) (n : Int) (s : Slide)
    (hwf : d.WF) (hinv : d.Inv) (hn : n = d.currentSlide)
    (hs : nth d.slides (d.currentSlide - 1).toNat = some s) :
    ∃ d1 d2, d.goToSlideImmediate n = some (d1, some n) ∧
      nth d1.slides ((n - 1).toNat) = some { s with active := false } ∧
      d.goToSlide n = some d2 ∧ d2.currentSlide = n ∧
      onlyActiveAt d2.slides ((n - 1).toNat) ∧
      uiProjected d2 n d.totalSlides := by
  obtain ⟨hc1, hc2⟩ := hinv
  subst hn
  obtain ⟨d1, him, _, _, _, _, _, _, _, _, hat, _⟩ :=
    goToSlideImmediate_valid d d.currentSlide s hc1 hc2 hc1 hs
  obtain ⟨d2, hgo, hcur, _, _, _, hact, hui⟩ :=
    goToSlide_valid d d.currentSlide hwf ⟨hc1, hc2⟩ hc1 hc2
  rw [if_neg (lt_irrefl d.currentSlide)] at hat
  exact ⟨d1, d2, him, hat, hgo, hcur, hact, hui⟩

/-- Closed instantiation of the previous theorem: `goToSlide(1)` while already
on slide 1 of the concrete deck. -/
theorem C10_goToSlide_current_index_witness :
    ∃ d1 d2, sampleDeck.goToSlideImmediate 1 = some (d1, some 1) ∧
      nth d1.slides (((1 : Int) - 1).toNat) = some { slideA with active := false } ∧
      sampleDeck.goToSlide 1 = some d2 ∧ d2.currentSlide = 1 ∧
      onlyActiveAt d2.slides (((1 : Int) - 1).toNat) ∧
      uiProjected d2 1 sampleDeck.totalSlides :=
  C10_goToSlide_current_index sampleDeck 1 slideA (by decide) (by decide)
    (by rfl) (by rfl)
